import Mathlib

/-!
Verification development for the xpath-kit expression core: a fluent
builder for XPath query strings.  The expression AST, its rendering and
coercion rules are embedded below, modelled from the specification
(`expressions.py` is absent from the source tree; its behaviour is pinned
by `tests/test_expression.py` and `tests/test_builders.py`).
-/

namespace XPathKit

/-- Modelled from the spec: the core raises a single evaluation-error kind
(`XPathEvaluationError` in `exceptions.py`, absent from the tree) when
rendering would produce invalid XPath text or a step promotion fails. -/
inductive XPathError where
  | evaluation (msg : String)
deriving DecidableEq, Repr

/-- Host-language scalar values that can flow into the builder: integers,
strings, booleans and the absence-of-value (Python `None`). -/
inductive Scalar where
  | int (n : Int)
  | str (s : String)
  | bool (b : Bool)
  | none
deriving DecidableEq, Repr

/-- Modelled from the spec: `_any_to_xpath_str` (Literal Coercion):
number to decimal text, boolean to lowercase true/false, absence-of-value
to the literal text "None", string returned unchanged. -/
def _any_to_xpath_str : Scalar → String
  | .int n => toString n
  | .str s => s
  | .bool true => "true"
  | .bool false => "false"
  | .none => "None"

/-- Modelled from the spec: the expression node hierarchy of
`expressions.py`: positional atom (`_index`), raw-fragment atom (`_str`),
generic-literal atom (`_any`), attribute and context anchors carrying an
optional accumulated condition, function-call node (`fun`), comparison
node, boolean combinator, and the element/path step node (`ele`) with
optional axis, tag, ordered predicates and separator-tagged successors
(`false` = child `/`, `true` = descendant `//`). -/
inductive Expr where
  | index (n : Int)
  | raw (s : String)
  | lit (v : Scalar)
  | attrA (name : String) (cond : Option Expr)
  | dotA (cond : Option Expr)
  | funC (name : String) (args : List (Expr ⊕ Scalar))
  | cmp (lhs : Expr) (op : String) (rhs : Expr ⊕ Scalar)
  | combo (andOp : Bool) (conds : List Expr)
  | eleS (axis : Option String) (tag : String) (preds : List Expr)
      (succs : List (Bool × Expr))

/-- An argument slot accepting either an expression node or a scalar. -/
abbrev Arg := Expr ⊕ Scalar

/-- Axis text: the `axis::` leading part of a step, empty when absent. -/
def axisText : Option String → String
  | Option.some a => a ++ "::"
  | Option.none => ""

/-- Separator join (Python `sep.join(parts)`). -/
def joinSep (sep : String) : List String → String
  | [] => ""
  | [t] => t
  | t :: rest => t ++ sep ++ joinSep sep rest

mutual

/-- Modelled from the spec: rendering (`part`/`__str__`), recursing
depth-first; the only failure is a positional atom of value zero. -/
def render : Expr → Except XPathError String
  | .index n =>
    if n > 0 then .ok (toString n)
    else if n = -1 then .ok "last()"
    else if n < -1 then .ok ("last()-" ++ toString (n.natAbs - 1))
    else .error (.evaluation "index must be a non-zero integer")
  | .raw s => .ok s
  | .lit v => .ok (_any_to_xpath_str v)
  | .attrA name Option.none => .ok ("@" ++ name)
  | .attrA _ (Option.some c) => render c
  | .dotA Option.none => .ok "."
  | .dotA (Option.some c) => render c
  | .funC name args =>
    match renderArgs args with
    | .ok ss => .ok (name ++ "(" ++ joinSep "," ss ++ ")")
    | .error e => .error e
  | .cmp l op r =>
    match render l, _any_to_str_in_expr r with
    | .ok ls, .ok rs => .ok (ls ++ op ++ rs)
    | .error e, _ => .error e
    | _, .error e => .error e
  | .combo andOp conds =>
    match renderAll conds with
    | .ok ss =>
      .ok ("(" ++ joinSep (if andOp then " and " else " or ") ss ++ ")")
    | .error e => .error e
  | .eleS ax tag preds succs =>
    match renderAll preds, renderSuccs succs with
    | .ok ps, .ok ss =>
      .ok (axisText ax ++ tag ++ String.join (ps.map fun p => "[" ++ p ++ "]") ++ ss)
    | .error e, _ => .error e
    | _, .error e => .error e

/-- Modelled from the spec: `expr._any_to_str_in_expr` (condition-text
coercion): an expression renders as itself, a string is wrapped in double
quotes without escaping, any other scalar uses `_any_to_xpath_str`. -/
def _any_to_str_in_expr : Arg → Except XPathError String
  | .inl e => render e
  | .inr (Scalar.str s) => .ok ("\"" ++ s ++ "\"")
  | .inr v => .ok (_any_to_xpath_str v)

/-- Renders each function argument in order. -/
def renderArgs : List Arg → Except XPathError (List String)
  | [] => .ok []
  | a :: rest =>
    match _any_to_str_in_expr a, renderArgs rest with
    | .ok s, .ok ss => .ok (s :: ss)
    | .error e, _ => .error e
    | _, .error e => .error e

/-- Renders each expression of a list in order. -/
def renderAll : List Expr → Except XPathError (List String)
  | [] => .ok []
  | e :: rest =>
    match render e, renderAll rest with
    | .ok s, .ok ss => .ok (s :: ss)
    | .error er, _ => .error er
    | _, .error er => .error er

/-- Renders the successor steps, each preceded by its separator. -/
def renderSuccs : List (Bool × Expr) → Except XPathError String
  | [] => .ok ""
  | (d, e) :: rest =>
    match render e, renderSuccs rest with
    | .ok t, .ok ts => .ok ((if d then "//" else "/") ++ t ++ ts)
    | .error er, _ => .error er
    | _, .error er => .error er

end

/-- Positional atom constructor (`_index(n)` in the source tests). -/
def _index (n : Int) : Expr := .index n

/-- Raw-fragment atom constructor (`_str(s)`): verbatim text. -/
def _str (s : String) : Expr := .raw s

/-- Generic-literal atom constructor (`_any(v)`). -/
def _any (v : Scalar) : Expr := .lit v

/-- Attribute anchor constructor (`attr(name)`), no accumulated condition. -/
def attr (name : String) : Expr := .attrA name Option.none

/-- Context anchor constructor (`dot()`). -/
def dot : Expr := .dotA Option.none

/-- Function-call node constructor (`fun(name, *args)`). -/
def funE (name : String) (args : List Arg) : Expr := .funC name args

/-- Element/step constructor (`ele(tag, axis=...)`). -/
def ele (tag : String) (ax : Option String) : Expr := .eleS ax tag [] []

/-- Modelled from the spec: `_any_to_expr` (Value Promotion): a node passes
through unchanged, an integer becomes a positional atom, a string becomes a
raw-fragment atom, anything else a generic-literal atom. -/
def _any_to_expr : Arg → Expr
  | .inl e => e
  | .inr (Scalar.int n) => .index n
  | .inr (Scalar.str s) => .raw s
  | .inr v => .lit v

/-- Whether an expression node is an element/step node. -/
def Expr.isEle : Expr → Bool
  | .eleS _ _ _ _ => true
  | _ => false

/-- Whether an expression node is a positional atom. -/
def Expr.isIndex : Expr → Bool
  | .index _ => true
  | _ => false

/-- Modelled from the spec: `ele._any_to_expr_in_ele` (step promotion): a
step node passes through unchanged, a string becomes a bare step with that
tag and no axis or predicates, everything else raises the evaluation-error
kind. -/
def _any_to_expr_in_ele : Arg → Except XPathError Expr
  | .inl (Expr.eleS ax tag preds succs) => .ok (.eleS ax tag preds succs)
  | .inr (Scalar.str s) => .ok (.eleS Option.none s [] [])
  | _ => .error (.evaluation "cannot build an element from this value")

/-- The fresh anchor for the same target: an attribute or context anchor
with its accumulated condition dropped; other nodes are their own target. -/
def Expr.target : Expr → Expr
  | .attrA n _ => .attrA n Option.none
  | .dotA _ => .dotA Option.none
  | e => e

/-- Modelled from the spec: chaining a new condition onto an anchor
implicitly ANDs it onto the accumulated condition and returns a new node
preserving the fluent API; on a non-anchor the condition itself results. -/
def Expr.withCond : Expr → Expr → Expr
  | .attrA n Option.none, c => .attrA n (Option.some c)
  | .attrA n (Option.some c0), c => .attrA n (Option.some (.combo true [c0, c]))
  | .dotA Option.none, c => .dotA (Option.some c)
  | .dotA (Option.some c0), c => .dotA (Option.some (.combo true [c0, c]))
  | _, c => c

/-- Comparison against a scalar or nested expression: renders
`target<op>literal` and accumulates onto the anchor. -/
def Expr.cmpOp (e : Expr) (op : String) (v : Arg) : Expr :=
  e.withCond (.cmp e.target op v)

/-- Equality comparison (`==`). -/
def Expr.eqE (e : Expr) (v : Arg) : Expr := e.cmpOp "=" v

/-- Inequality comparison (`!=`). -/
def Expr.neE (e : Expr) (v : Arg) : Expr := e.cmpOp "!=" v

/-- Greater-than comparison (`gt` / `>`). -/
def Expr.gt (e : Expr) (v : Arg) : Expr := e.cmpOp ">" v

/-- Less-than comparison (`lt` / `<`). -/
def Expr.lt (e : Expr) (v : Arg) : Expr := e.cmpOp "<" v

/-- Greater-or-equal comparison (`>=`). -/
def Expr.ge (e : Expr) (v : Arg) : Expr := e.cmpOp ">=" v

/-- Less-or-equal comparison (`<=`). -/
def Expr.le (e : Expr) (v : Arg) : Expr := e.cmpOp "<=" v

/-- The `contains(target,lit)` condition for one value. -/
def containsTerm (t : Expr) (v : Scalar) : Expr :=
  .funC "contains" [.inl t, .inr v]

/-- String test `contains(v)`. -/
def Expr.containsS (e : Expr) (v : Scalar) : Expr :=
  e.withCond (containsTerm e.target v)

/-- String test `starts_with(v)`. -/
def Expr.startsWithS (e : Expr) (v : Scalar) : Expr :=
  e.withCond (.funC "starts-with" [.inl e.target, .inr v])

/-- String test `ends_with(v)`. -/
def Expr.endsWithS (e : Expr) (v : Scalar) : Expr :=
  e.withCond (.funC "ends-with" [.inl e.target, .inr v])

/-- Modelled from the spec: `all(v1..vn)`: AND-fold of `contains(target,vi)`
terms, parenthesized once around the whole fold. -/
def Expr.allV (e : Expr) (vs : List Scalar) : Expr :=
  e.withCond (.combo true (vs.map (containsTerm e.target)))

/-- Modelled from the spec: `any(v1..vn)`: OR-fold of `contains(target,vi)`
terms, parenthesized once around the whole fold. -/
def Expr.anyV (e : Expr) (vs : List Scalar) : Expr :=
  e.withCond (.combo false (vs.map (containsTerm e.target)))

/-- Modelled from the spec: `none(v1..vn)`: AND-fold of
`not(contains(target,vi))` terms, parenthesized once. -/
def Expr.noneV (e : Expr) (vs : List Scalar) : Expr :=
  e.withCond (.combo true (vs.map fun v => .funC "not" [.inl (containsTerm e.target v)]))

/-- Boolean combinator AND (`&`): always parenthesized. -/
def Expr.andE (l r : Expr) : Expr := .combo true [l, r]

/-- Boolean combinator OR (`|`): always parenthesized. -/
def Expr.orE (l r : Expr) : Expr := .combo false [l, r]

/-- Step predicate attachment (`el[p]`): appends the promoted predicate. -/
def Expr.withPred (e : Expr) (p : Arg) : Expr :=
  match e with
  | .eleS ax tag preds succs => .eleS ax tag (preds ++ [_any_to_expr p]) succs
  | other => other

/-- Child composition (`el / next`): appends a `/`-joined successor. -/
def Expr.child (e : Expr) (a : Arg) : Except XPathError Expr :=
  match e, _any_to_expr_in_ele a with
  | .eleS ax tag preds succs, .ok n => .ok (.eleS ax tag preds (succs ++ [(false, n)]))
  | _, .error er => .error er
  | _, .ok _ => .error (.evaluation "cannot extend a non-element")

/-- Descendant composition (`el // next`): appends a `//`-joined successor. -/
def Expr.desc (e : Expr) (a : Arg) : Except XPathError Expr :=
  match e, _any_to_expr_in_ele a with
  | .eleS ax tag preds succs, .ok n => .ok (.eleS ax tag preds (succs ++ [(true, n)]))
  | _, .error er => .error er
  | _, .ok _ => .error (.evaluation "cannot extend a non-element")

/-- The condition text of a scalar argument, as `_any_to_str_in_expr`
produces it: strings quoted, others via `_any_to_xpath_str`. -/
def scalarArgText : Scalar → String
  | Scalar.str s => "\"" ++ s ++ "\""
  | v => _any_to_xpath_str v

/-- The rendered text of an expression, or the empty string when
rendering fails. -/
def renderedText (e : Expr) : String := (render e).toOption.getD ""

/-- Modelled from the spec: the builders layer (`builders.py`, absent from
the tree; behaviour pinned by `tests/test_builders.py`) maps a Python
attribute name to the XPath name by stripping a single trailing underscore
(used to avoid Python keywords) and replacing every remaining underscore
with a hyphen. -/
def pyNameToXPath (s : String) : String :=
  let cs := s.data
  let t := if cs.getLast? = Option.some '_' then cs.dropLast else cs
  String.mk (t.map fun c => if c = '_' then '-' else c)

/-- Modelled from the spec: the `A` attribute builder: attribute access
`A.name` yields `attr` of the mapped name. -/
def A (pyName : String) : Expr := attr (pyNameToXPath pyName)

/-- Modelled from the spec: the `F` function builder: attribute access
`F.name(*args)` yields `fun` of the mapped name applied to the args. -/
def F (pyName : String) (args : List Arg) : Expr := funE (pyNameToXPath pyName) args

/-! Helper lemmas about the renderer, shared by the claim theorems. -/

theorem scalar_arg_text (v : Scalar) :
    _any_to_str_in_expr (.inr v) = .ok (scalarArgText v) := by
  cases v <;> rfl

theorem renderArgs_nil : renderArgs [] = .ok [] := rfl

theorem renderArgs_cons_ok {a : Arg} {s : String} {rest : List Arg} {ss : List String}
    (h1 : _any_to_str_in_expr a = .ok s) (h2 : renderArgs rest = .ok ss) :
    renderArgs (a :: rest) = .ok (s :: ss) := by
  unfold renderArgs
  rw [h1, h2]

theorem renderAll_nil : renderAll [] = .ok [] := rfl

theorem renderAll_cons_ok {e : Expr} {s : String} {rest : List Expr} {ss : List String}
    (h1 : render e = .ok s) (h2 : renderAll rest = .ok ss) :
    renderAll (e :: rest) = .ok (s :: ss) := by
  unfold renderAll
  rw [h1, h2]

theorem renderSuccs_nil : renderSuccs [] = .ok "" := rfl

theorem renderSuccs_cons_ok {d : Bool} {e : Expr} {t ts : String} {rest : List (Bool × Expr)}
    (h1 : render e = .ok t) (h2 : renderSuccs rest = .ok ts) :
    renderSuccs ((d, e) :: rest) = .ok ((if d then "//" else "/") ++ t ++ ts) := by
  unfold renderSuccs
  rw [h1, h2]

theorem render_funC_ok {name : String} {args : List Arg} {ss : List String}
    (h : renderArgs args = .ok ss) :
    render (.funC name args) = .ok (name ++ "(" ++ joinSep "," ss ++ ")") := by
  unfold render
  rw [h]

theorem render_combo_ok {andOp : Bool} {conds : List Expr} {ss : List String}
    (h : renderAll conds = .ok ss) :
    render (.combo andOp conds) =
      .ok ("(" ++ joinSep (if andOp then " and " else " or ") ss ++ ")") := by
  unfold render
  rw [h]

theorem render_cmp_ok {l : Expr} {op ls rs : String} {r : Arg}
    (h1 : render l = .ok ls) (h2 : _any_to_str_in_expr r = .ok rs) :
    render (.cmp l op r) = .ok (ls ++ op ++ rs) := by
  unfold render
  rw [h1, h2]

theorem render_eleS_ok {ax : Option String} {tag : String} {preds : List Expr}
    {succs : List (Bool × Expr)} {ps : List String} {ss : String}
    (h1 : renderAll preds = .ok ps) (h2 : renderSuccs succs = .ok ss) :
    render (.eleS ax tag preds succs) =
      .ok (axisText ax ++ tag ++ String.join (ps.map fun p => "[" ++ p ++ "]") ++ ss) := by
  unfold render
  rw [h1, h2]

theorem render_attrA_some {name s : String} {c : Expr} (h : render c = .ok s) :
    render (.attrA name (Option.some c)) = .ok s := h

theorem render_dotA_some {s : String} {c : Expr} (h : render c = .ok s) :
    render (.dotA (Option.some c)) = .ok s := h

theorem render_containsTerm {t : Expr} {tt : String} (v : Scalar) (h : render t = .ok tt) :
    render (containsTerm t v) = .ok ("contains(" ++ tt ++ "," ++ scalarArgText v ++ ")") := by
  have h1 : renderArgs [Sum.inl t, Sum.inr v] = .ok [tt, scalarArgText v] :=
    renderArgs_cons_ok h (renderArgs_cons_ok (scalar_arg_text v) renderArgs_nil)
  rw [containsTerm, render_funC_ok h1]
  simp [joinSep, String.append_assoc]

theorem render_notContainsTerm {t : Expr} {tt : String} (v : Scalar) (h : render t = .ok tt) :
    render (.funC "not" [.inl (containsTerm t v)]) =
      .ok ("not(" ++ ("contains(" ++ tt ++ "," ++ scalarArgText v ++ ")") ++ ")") := by
  have h1 : renderArgs [Sum.inl (containsTerm t v)] =
      .ok ["contains(" ++ tt ++ "," ++ scalarArgText v ++ ")"] :=
    renderArgs_cons_ok (render_containsTerm v h) renderArgs_nil
  rw [render_funC_ok h1]
  simp [joinSep, String.append_assoc]

theorem renderAll_containsTerms {t : Expr} {tt : String} (h : render t = .ok tt)
    (vs : List Scalar) :
    renderAll (vs.map (containsTerm t)) =
      .ok (vs.map fun v => "contains(" ++ tt ++ "," ++ scalarArgText v ++ ")") := by
  induction vs with
  | nil => rfl
  | cons v rest ih => exact renderAll_cons_ok (render_containsTerm v h) ih

theorem renderAll_notContainsTerms {t : Expr} {tt : String} (h : render t = .ok tt)
    (vs : List Scalar) :
    renderAll (vs.map fun v => Expr.funC "not" [.inl (containsTerm t v)]) =
      .ok (vs.map fun v => "not(" ++ ("contains(" ++ tt ++ "," ++ scalarArgText v ++ ")") ++ ")") := by
  induction vs with
  | nil => rfl
  | cons v rest ih => exact renderAll_cons_ok (render_notContainsTerm v h) ih

/-- Claim C1: rendering a Step node produces the axis prefix (`axis::`)
when present, then the tag, then each predicate wrapped in brackets in
declaration order, then each successor rendered recursively preceded by
its joining separator (`/` for child, `//` for descendant); in
particular `a.childOf(b).descendantOf(c)` renders exactly `a/b//c`, and
`ele("div", axis="ancestor")` with predicate `1` renders exactly
`ancestor::div[1]`. -/
theorem xkC1 :
    (∀ (ax : Option String) (tag : String) (preds : List Expr) (succs : List (Bool × Expr))
        (ps : List String) (ss : String),
      renderAll preds = .ok ps → renderSuccs succs = .ok ss →
      render (.eleS ax tag preds succs) =
        .ok (axisText ax ++ tag ++ String.join (ps.map fun p => "[" ++ p ++ "]") ++ ss))
    ∧ (∀ (d : Bool) (e : Expr) (rest : List (Bool × Expr)) (t ts : String),
      render e = .ok t → renderSuccs rest = .ok ts →
      renderSuccs ((d, e) :: rest) = .ok ((if d then "//" else "/") ++ t ++ ts))
    ∧ Except.bind ((ele "a" Option.none).child (.inr (Scalar.str "b")))
        (fun e => Except.bind (e.desc (.inr (Scalar.str "c"))) render) = .ok "a/b//c"
    ∧ render ((ele "div" (Option.some "ancestor")).withPred (.inr (Scalar.int 1))) =
        .ok "ancestor::div[1]" := by
  refine ⟨?_, ?_, rfl, rfl⟩
  · intro ax tag preds succs ps ss h1 h2
    exact render_eleS_ok h1 h2
  · intro d e rest t ts h1 h2
    exact renderSuccs_cons_ok h1 h2

/-- Witness for C1: the step-rendering rule applied to the concrete step
`ancestor::div[1]`. -/
theorem xkC1_witness :
    renderAll [Expr.index 1] = .ok ["1"]
    ∧ renderSuccs [] = .ok ""
    ∧ render (.eleS (Option.some "ancestor") "div" [Expr.index 1] []) = .ok "ancestor::div[1]" :=
  ⟨rfl, rfl, xkC1.1 (Option.some "ancestor") "div" [Expr.index 1] [] ["1"] "" rfl rfl⟩

/-- Claim C2: for every pair of already-renderable conditions the boolean
combinator renders `(L and R)` / `(L or R)` with exactly one enclosing
parenthesis pair per combinator; consequently `(a&b)|c` over the
conditions `@a=1`, `@b=2`, `@c=3` renders `((@a=1 and @b=2) or @c=3)`
and `a|(b&c)` renders `(@a=1 or (@b=2 and @c=3))`. -/
theorem xkC2 :
    (∀ (L R : Expr) (ls rs : String), render L = .ok ls → render R = .ok rs →
      render (L.andE R) = .ok ("(" ++ ls ++ " and " ++ rs ++ ")")
      ∧ render (L.orE R) = .ok ("(" ++ ls ++ " or " ++ rs ++ ")"))
    ∧ render ((((attr "a").eqE (.inr (.int 1))).andE ((attr "b").eqE (.inr (.int 2)))).orE
        ((attr "c").eqE (.inr (.int 3)))) = .ok "((@a=1 and @b=2) or @c=3)"
    ∧ render (((attr "a").eqE (.inr (.int 1))).orE
        (((attr "b").eqE (.inr (.int 2))).andE ((attr "c").eqE (.inr (.int 3))))) =
        .ok "(@a=1 or (@b=2 and @c=3))" := by
  refine ⟨?_, rfl, rfl⟩
  intro L R ls rs hL hR
  have h2 : renderAll [L, R] = .ok [ls, rs] :=
    renderAll_cons_ok hL (renderAll_cons_ok hR renderAll_nil)
  constructor
  · rw [Expr.andE, render_combo_ok h2]
    simp [joinSep, String.append_assoc]
  · rw [Expr.orE, render_combo_ok h2]
    simp [joinSep, String.append_assoc]

/-- Witness for C2: the combinator rule applied to the renderable
conditions `@a` and `@b`. -/
theorem xkC2_witness :
    render (attr "a") = .ok "@a"
    ∧ render (attr "b") = .ok "@b"
    ∧ render ((attr "a").andE (attr "b")) = .ok "(@a and @b)"
    ∧ render ((attr "a").orE (attr "b")) = .ok "(@a or @b)" :=
  ⟨rfl, rfl, (xkC2.1 (attr "a") (attr "b") "@a" "@b" rfl rfl).1,
    (xkC2.1 (attr "a") (attr "b") "@a" "@b" rfl rfl).2⟩

/-- Claim C3: chaining two comparisons on the same attribute anchor
renders the same text as explicitly AND-combining the two
single-comparison conditions; for `price`, `gt(100).lt(200)` renders
exactly `(@price>100 and @price<200)`, and the chained call returns an
attribute anchor that still supports further fluent calls. -/
theorem xkC3 :
    (∀ (name : String) (v1 v2 : Scalar),
      render (((attr name).gt (.inr v1)).lt (.inr v2)) =
        .ok ("(" ++ ("@" ++ name ++ ">" ++ scalarArgText v1) ++ " and " ++
          ("@" ++ name ++ "<" ++ scalarArgText v2) ++ ")")
      ∧ render (((attr name).gt (.inr v1)).lt (.inr v2)) =
          render (((attr name).gt (.inr v1)).andE ((attr name).lt (.inr v2)))
      ∧ ∃ c : Expr, ((attr name).gt (.inr v1)).lt (.inr v2) = .attrA name (Option.some c))
    ∧ render (((attr "price").gt (.inr (.int 100))).lt (.inr (.int 200))) =
        .ok "(@price>100 and @price<200)"
    ∧ render ((((attr "price").gt (.inr (.int 100))).lt (.inr (.int 200))).ge
        (.inr (.int 150))) = .ok "((@price>100 and @price<200) and @price>=150)" := by
  refine ⟨?_, rfl, rfl⟩
  intro name v1 v2
  have htgt : render (.attrA name Option.none) = .ok ("@" ++ name) := rfl
  have hc1 : render (.cmp (.attrA name Option.none) ">" (.inr v1)) =
      .ok ("@" ++ name ++ ">" ++ scalarArgText v1) :=
    render_cmp_ok htgt (scalar_arg_text v1)
  have hc2 : render (.cmp (.attrA name Option.none) "<" (.inr v2)) =
      .ok ("@" ++ name ++ "<" ++ scalarArgText v2) :=
    render_cmp_ok htgt (scalar_arg_text v2)
  have hshape : ((attr name).gt (.inr v1)).lt (.inr v2) =
      .attrA name (Option.some (.combo true
        [.cmp (.attrA name Option.none) ">" (.inr v1),
          .cmp (.attrA name Option.none) "<" (.inr v2)])) := rfl
  have hjoin : renderAll
      [Expr.cmp (.attrA name Option.none) ">" (.inr v1),
        Expr.cmp (.attrA name Option.none) "<" (.inr v2)] =
      .ok ["@" ++ name ++ ">" ++ scalarArgText v1, "@" ++ name ++ "<" ++ scalarArgText v2] :=
    renderAll_cons_ok hc1 (renderAll_cons_ok hc2 renderAll_nil)
  have hchain : render (((attr name).gt (.inr v1)).lt (.inr v2)) =
      .ok ("(" ++ ("@" ++ name ++ ">" ++ scalarArgText v1) ++ " and " ++
        ("@" ++ name ++ "<" ++ scalarArgText v2) ++ ")") := by
    rw [hshape, render_attrA_some (render_combo_ok hjoin)]
    simp [joinSep, String.append_assoc]
  refine ⟨hchain, ?_, ⟨_, hshape⟩⟩
  have hcomb : render (((attr name).gt (.inr v1)).andE ((attr name).lt (.inr v2))) =
      .ok ("(" ++ ("@" ++ name ++ ">" ++ scalarArgText v1) ++ " and " ++
        ("@" ++ name ++ "<" ++ scalarArgText v2) ++ ")") := by
    have hsh2 : ((attr name).gt (.inr v1)).andE ((attr name).lt (.inr v2)) =
        .combo true
          [.attrA name (Option.some (.cmp (.attrA name Option.none) ">" (.inr v1))),
            .attrA name (Option.some (.cmp (.attrA name Option.none) "<" (.inr v2)))] := rfl
    rw [hsh2, render_combo_ok (renderAll_cons_ok (render_attrA_some hc1)
      (renderAll_cons_ok (render_attrA_some hc2) renderAll_nil))]
    simp [joinSep, String.append_assoc]
  rw [hchain, hcomb]

/-- Claim C4: a positional atom renders the decimal text of `n` when
`n > 0`, the text `last()` when `n = -1`, the text `last()-` followed by
`|n| - 1` when `n < -1`; construction at `n = 0` succeeds (validation is
lazy) but rendering fails with the evaluation error. -/
theorem xkC4 (n : Int) :
    (0 < n → render (_index n) = .ok (toString n))
    ∧ (n = -1 → render (_index n) = .ok "last()")
    ∧ (n < -1 → render (_index n) = .ok ("last()-" ++ toString (n.natAbs - 1)))
    ∧ (n = 0 → render (_index n) = .error (.evaluation "index must be a non-zero integer")) := by
  refine ⟨fun h => ?_, fun h => ?_, fun h => ?_, fun h => ?_⟩
  · rw [_index]
    unfold render
    rw [if_pos h]
  · subst h
    rfl
  · rw [_index]
    unfold render
    rw [if_neg (by omega), if_neg (by omega), if_pos h]
  · subst h
    rfl

/-- Witness for C4: the positional-atom rendering rule applied at 5, -1,
-10 and 0. -/
theorem xkC4_witness :
    ((0:Int) < 5 ∧ render (_index 5) = .ok "5")
    ∧ render (_index (-1)) = .ok "last()"
    ∧ ((-10:Int) < -1 ∧ render (_index (-10)) = .ok "last()-9")
    ∧ render (_index 0) = .error (.evaluation "index must be a non-zero integer") :=
  ⟨⟨by decide, (xkC4 5).1 (by decide)⟩, (xkC4 (-1)).2.1 rfl,
    ⟨by decide, (xkC4 (-10)).2.2.1 (by decide)⟩, (xkC4 0).2.2.2 rfl⟩

/-- Claim C5: for every attribute or context target and non-empty value
list, `all` renders an AND-fold of `contains(target,vi)` terms
parenthesized once around the whole fold, `any` renders an OR-fold of
the same terms parenthesized once, and `none` renders an AND-fold of
`not(contains(target,vi))` terms parenthesized once. -/
theorem xkC5 (name : String) (vs : List Scalar) (hne : vs ≠ []) :
    (render ((attr name).allV vs) =
        .ok ("(" ++ joinSep " and "
          (vs.map fun v => "contains(" ++ ("@" ++ name) ++ "," ++ scalarArgText v ++ ")") ++ ")")
      ∧ render ((attr name).anyV vs) =
        .ok ("(" ++ joinSep " or "
          (vs.map fun v => "contains(" ++ ("@" ++ name) ++ "," ++ scalarArgText v ++ ")") ++ ")")
      ∧ render ((attr name).noneV vs) =
        .ok ("(" ++ joinSep " and "
          (vs.map fun v =>
            "not(" ++ ("contains(" ++ ("@" ++ name) ++ "," ++ scalarArgText v ++ ")") ++ ")") ++ ")"))
    ∧ (render (dot.allV vs) =
        .ok ("(" ++ joinSep " and "
          (vs.map fun v => "contains(" ++ "." ++ "," ++ scalarArgText v ++ ")") ++ ")")
      ∧ render (dot.anyV vs) =
        .ok ("(" ++ joinSep " or "
          (vs.map fun v => "contains(" ++ "." ++ "," ++ scalarArgText v ++ ")") ++ ")")
      ∧ render (dot.noneV vs) =
        .ok ("(" ++ joinSep " and "
          (vs.map fun v =>
            "not(" ++ ("contains(" ++ "." ++ "," ++ scalarArgText v ++ ")") ++ ")") ++ ")")) := by
  have ht : render (.attrA name Option.none) = .ok ("@" ++ name) := rfl
  have hd : render (.dotA Option.none) = .ok "." := rfl
  refine ⟨⟨?_, ?_, ?_⟩, ⟨?_, ?_, ?_⟩⟩
  · exact render_attrA_some (render_combo_ok (renderAll_containsTerms ht vs))
  · exact render_attrA_some (render_combo_ok (renderAll_containsTerms ht vs))
  · exact render_attrA_some (render_combo_ok (renderAll_notContainsTerms ht vs))
  · exact render_dotA_some (render_combo_ok (renderAll_containsTerms hd vs))
  · exact render_dotA_some (render_combo_ok (renderAll_containsTerms hd vs))
  · exact render_dotA_some (render_combo_ok (renderAll_notContainsTerms hd vs))

/-- Witness for C5: the multi-value rules applied to the class attribute
with the concrete value lists of the test suite. -/
theorem xkC5_witness :
    ([Scalar.str "item", Scalar.str "active"] ≠ ([] : List Scalar))
    ∧ render ((attr "class").allV [Scalar.str "item", Scalar.str "active"]) =
        .ok "(contains(@class,\"item\") and contains(@class,\"active\"))"
    ∧ render ((attr "class").anyV [Scalar.str "item", Scalar.str "active"]) =
        .ok "(contains(@class,\"item\") or contains(@class,\"active\"))"
    ∧ render ((attr "class").noneV [Scalar.str "disabled", Scalar.str "hidden"]) =
        .ok "(not(contains(@class,\"disabled\")) and not(contains(@class,\"hidden\")))" :=
  ⟨by simp,
    (xkC5 "class" [Scalar.str "item", Scalar.str "active"] (by simp)).1.1,
    (xkC5 "class" [Scalar.str "item", Scalar.str "active"] (by simp)).1.2.1,
    (xkC5 "class" [Scalar.str "disabled", Scalar.str "hidden"] (by simp)).1.2.2⟩

/-- Counterexample for C6: the claim says `any` folds its `contains`
terms with AND and `none` folds with OR; on the concrete inputs of the
test suite the code folds `any` with OR and `none` with AND. -/
theorem xkC6_counterexample :
    render ((attr "class").anyV [Scalar.str "item", Scalar.str "active"]) =
      .ok "(contains(@class,\"item\") or contains(@class,\"active\"))"
    ∧ (renderedText ((attr "class").anyV [Scalar.str "item", Scalar.str "active"])
        == "(contains(@class,\"item\") and contains(@class,\"active\"))") = false
    ∧ render ((attr "class").noneV [Scalar.str "disabled", Scalar.str "hidden"]) =
      .ok "(not(contains(@class,\"disabled\")) and not(contains(@class,\"hidden\")))"
    ∧ (renderedText ((attr "class").noneV [Scalar.str "disabled", Scalar.str "hidden"])
        == "(not(contains(@class,\"disabled\")) or not(contains(@class,\"hidden\")))") = false :=
  ⟨rfl, rfl, rfl, rfl⟩

/-- Claim C6 (amended): over `k` values, `all`, `any` and `none` produce
exactly `k` `contains(...)` terms (negated for `none`), folded with AND,
OR and AND respectively, with a single enclosing parenthesis pair around
each fold. -/
theorem xkC6 (name : String) (vs : List Scalar) :
    (render ((attr name).allV vs) =
        .ok ("(" ++ joinSep " and "
          (vs.map fun v => "contains(" ++ ("@" ++ name) ++ "," ++ scalarArgText v ++ ")") ++ ")")
      ∧ (vs.map fun v =>
          "contains(" ++ ("@" ++ name) ++ "," ++ scalarArgText v ++ ")").length = vs.length)
    ∧ (render ((attr name).anyV vs) =
        .ok ("(" ++ joinSep " or "
          (vs.map fun v => "contains(" ++ ("@" ++ name) ++ "," ++ scalarArgText v ++ ")") ++ ")")
      ∧ (vs.map fun v =>
          "contains(" ++ ("@" ++ name) ++ "," ++ scalarArgText v ++ ")").length = vs.length)
    ∧ (render ((attr name).noneV vs) =
        .ok ("(" ++ joinSep " and "
          (vs.map fun v =>
            "not(" ++ ("contains(" ++ ("@" ++ name) ++ "," ++ scalarArgText v ++ ")") ++ ")") ++ ")")
      ∧ (vs.map fun v =>
          "not(" ++ ("contains(" ++ ("@" ++ name) ++ "," ++ scalarArgText v ++ ")") ++ ")").length =
            vs.length) := by
  have ht : render (.attrA name Option.none) = .ok ("@" ++ name) := rfl
  refine ⟨⟨?_, by simp⟩, ⟨?_, by simp⟩, ⟨?_, by simp⟩⟩
  · exact render_attrA_some (render_combo_ok (renderAll_containsTerms ht vs))
  · exact render_attrA_some (render_combo_ok (renderAll_containsTerms ht vs))
  · exact render_attrA_some (render_combo_ok (renderAll_notContainsTerms ht vs))

/-- Claim C7: the scalar-to-text coercion maps numbers to decimal text,
booleans to lowercase true/false, absence-of-value to the literal text
None, and strings unchanged; the condition-text coercion returns a
renderable expression's own rendered text, wraps strings in double
quotes without escaping, and applies the scalar rules otherwise. -/
theorem xkC7 :
    (∀ (e : Expr) (ts : String), render e = .ok ts → _any_to_str_in_expr (.inl e) = .ok ts)
    ∧ (∀ s : String, _any_to_str_in_expr (.inr (.str s)) = .ok ("\"" ++ s ++ "\""))
    ∧ (∀ n : Int, _any_to_str_in_expr (.inr (.int n)) = .ok (_any_to_xpath_str (.int n)))
    ∧ (∀ b : Bool, _any_to_str_in_expr (.inr (.bool b)) = .ok (_any_to_xpath_str (.bool b)))
    ∧ _any_to_str_in_expr (.inr Scalar.none) = .ok (_any_to_xpath_str Scalar.none)
    ∧ (∀ n : Int, _any_to_xpath_str (.int n) = toString n)
    ∧ _any_to_xpath_str (.bool true) = "true"
    ∧ _any_to_xpath_str (.bool false) = "false"
    ∧ _any_to_xpath_str Scalar.none = "None"
    ∧ (∀ s : String, _any_to_xpath_str (.str s) = s) := by
  refine ⟨fun e ts h => h, fun s => rfl, fun n => rfl, fun b => ?_, rfl,
    fun n => rfl, rfl, rfl, rfl, fun s => rfl⟩
  cases b <;> rfl

/-- Witness for C7: the condition-text coercion applied to the rendered
expression `attr("id")`. -/
theorem xkC7_witness :
    render (attr "id") = .ok "@id"
    ∧ _any_to_str_in_expr (.inl (attr "id")) = .ok "@id" :=
  ⟨rfl, xkC7.1 (attr "id") "@id" rfl⟩

/-- Claim C8: value promotion is the identity on expression nodes, wraps
integers in positional atoms, strings in raw-fragment atoms, and every
other value, in particular booleans, in generic-literal atoms; a boolean
is never promoted to a positional atom and renders as true/false. -/
theorem xkC8 :
    (∀ e : Expr, _any_to_expr (.inl e) = e)
    ∧ (∀ n : Int, _any_to_expr (.inr (.int n)) = _index n)
    ∧ (∀ s : String, _any_to_expr (.inr (.str s)) = _str s)
    ∧ (∀ b : Bool, _any_to_expr (.inr (.bool b)) = _any (.bool b))
    ∧ _any_to_expr (.inr Scalar.none) = _any Scalar.none
    ∧ (∀ b : Bool, (_any_to_expr (.inr (.bool b))).isIndex = false)
    ∧ render (_any_to_expr (.inr (.bool true))) = .ok "true"
    ∧ render (_any_to_expr (.inr (.bool false))) = .ok "false" := by
  refine ⟨fun e => rfl, fun n => rfl, fun s => rfl, fun b => ?_, rfl,
    fun b => ?_, rfl, rfl⟩
  · cases b <;> rfl
  · cases b <;> rfl

/-- Claim C9: step promotion returns a step node unchanged, wraps a
string as a bare step with that tag and no axis or predicates, and
raises the evaluation-error kind on every other value, never a silent
fallback or partial result. -/
theorem xkC9 :
    (∀ (ax : Option String) (tag : String) (preds : List Expr) (succs : List (Bool × Expr)),
      _any_to_expr_in_ele (.inl (.eleS ax tag preds succs)) = .ok (.eleS ax tag preds succs))
    ∧ (∀ s : String, _any_to_expr_in_ele (.inr (.str s)) = .ok (.eleS Option.none s [] []))
    ∧ (∀ a : Arg, (∀ e : Expr, a = .inl e → e.isEle = false) →
        (∀ s : String, a ≠ .inr (.str s)) →
        _any_to_expr_in_ele a = .error (.evaluation "cannot build an element from this value")) := by
  refine ⟨fun ax tag preds succs => rfl, fun s => rfl, fun a h1 h2 => ?_⟩
  match a with
  | Sum.inl (Expr.eleS ax tag preds succs) => exact absurd (h1 _ rfl) (by simp [Expr.isEle])
  | Sum.inl (Expr.index n) => rfl
  | Sum.inl (Expr.raw s) => rfl
  | Sum.inl (Expr.lit v) => rfl
  | Sum.inl (Expr.attrA n c) => rfl
  | Sum.inl (Expr.dotA c) => rfl
  | Sum.inl (Expr.funC n args) => rfl
  | Sum.inl (Expr.cmp l op r) => rfl
  | Sum.inl (Expr.combo b cs) => rfl
  | Sum.inr (Scalar.str s) => exact absurd rfl (h2 s)
  | Sum.inr (Scalar.int n) => rfl
  | Sum.inr (Scalar.bool b) => rfl
  | Sum.inr Scalar.none => rfl

/-- Witness for C9: step promotion of the integer 123 fails with the
evaluation error. -/
theorem xkC9_witness :
    _any_to_expr_in_ele (.inr (.int 123)) =
      .error (.evaluation "cannot build an element from this value") :=
  xkC9.2.2 (.inr (.int 123)) (fun e h => Sum.noConfusion h)
    (fun s h => Scalar.noConfusion (Sum.inr.inj h))

/-- Claim C10: the convenience builders map a Python attribute name to
the XPath name by stripping a single trailing underscore and replacing
every underscore with a hyphen: `F.string_length` renders
`string-length(...)`, `F.normalize_space` renders `normalize-space(...)`,
`F.not_` renders `not(...)`, `A.class_` renders `@class` and `A.for_`
renders `@for`. -/
theorem xkC10 :
    pyNameToXPath "string_length" = "string-length"
    ∧ pyNameToXPath "normalize_space" = "normalize-space"
    ∧ pyNameToXPath "not_" = "not"
    ∧ pyNameToXPath "class_" = "class"
    ∧ pyNameToXPath "for_" = "for"
    ∧ render (F "string_length" [.inl (F "normalize_space" [.inl dot])]) =
        .ok "string-length(normalize-space(.))"
    ∧ render (F "not_" [.inl (A "disabled")]) = .ok "not(@disabled)"
    ∧ render (A "class_") = .ok "@class"
    ∧ render (A "for_") = .ok "@for" :=
  ⟨rfl, rfl, rfl, rfl, rfl, rfl, rfl, rfl, rfl⟩

end XPathKit
